import Mathlib

/-!
Verification development for the OpenXR session entrypoints of
`src/xrt/state_trackers/oxr/oxr_api_session.c` (Monado).

The file shallowly embeds the entrypoint functions of that file.  Each
`oxr_xr*` definition mirrors one C entrypoint: the sequence of
verification macros at the top of the function, the call-specific checks,
and the final dispatch into the session/device layer.  Handles are
modelled as already-decoded `Option` values (`none` is a null or invalid
handle, matching the `OXR_VERIFY_*_AND_INIT_LOG` macros which reject those
with `XR_ERROR_HANDLE_INVALID`).  Caller memory that an entrypoint writes
into is passed in and returned as explicit values.  Floating point
refresh rates are modelled as exact rationals; the two-decimal truncation
`(int)(x * 100.0f)` is modelled as exact multiplication by 100 followed by
integer truncation toward zero, which agrees with the IEEE float
computation on all concrete values appearing in the theorems below.

Behaviour of this repository that lives outside the source file
(verification macros, `oxr_session_*` helpers, `oxr_handle_destroy`, the
two-call helper, system capability queries) is modelled from the spec;
each such definition carries a doc comment saying so.

All builds flags of the file (`OXR_HAVE_*` / `XR_*` feature guards) are
taken as enabled, i.e. the model covers the maximal build in which every
entrypoint of the file is compiled.
-/

set_option autoImplicit false

namespace OxrApiSession

/-- Result codes returned by the entrypoints in this file. -/
inductive XrResult where
  | success
  | errorValidationFailure
  | errorHandleInvalid
  | errorSessionLost
  | errorSessionRunning
  | errorSessionNotRunning
  | errorTimeInvalid
  | errorSizeInsufficient
  | errorFeatureUnsupported
  | errorFunctionUnsupported
  | errorRuntimeFailure
  | errorViewConfigurationTypeUnsupported
  | errorDisplayRefreshRateUnsupportedFB
  deriving DecidableEq

/-- OpenXR structure type tags (`XrStructureType`) used by the file. -/
inductive XrStructTag where
  | sessionBeginInfo
  | frameWaitInfo
  | frameState
  | frameBeginInfo
  | frameEndInfo
  | viewLocateInfo
  | viewState
  | view
  | visibilityMaskKHR
  | handTrackerCreateInfoEXT
  | handJointsLocateInfoEXT
  | handJointLocationsEXT
  | handJointVelocitiesEXT
  | forceFeedbackCurlApplyLocationsMNDX
  | facialTrackerCreateInfoHTC
  | facialExpressionsHTC
  | bodyTrackerCreateInfoFB
  | bodyJointsLocateInfoFB
  | bodyJointLocationsFB
  | bodySkeletonFB
  | otherTag (n : Nat)
  deriving DecidableEq

/-- Downstream (non-entrypoint) functions that the file tail-dispatches to
after validation succeeds.  The source file only validates and dispatches;
an `Outcome.call f` means every check passed and control moved to `f`. -/
inductive Downstream where
  | sessionBegin
  | sessionEnd
  | sessionFrameWait
  | sessionFrameBegin
  | sessionFrameEnd
  | sessionRequestExit
  | sessionLocateViews
  | sessionGetVisibilityMask
  | sessionSetPerfLevel
  | sessionHandJoints
  | sessionApplyForceFeedback
  | sessionAndroidThreadSettings
  | sessionGetDisplayRefreshRate
  | sessionRequestDisplayRefreshRate
  | deviceSetBodyTrackingFidelity
  deriving DecidableEq

/-- What an entrypoint did: returned a result code inside the file (no
downstream mutation happened), dispatched to a downstream function after
all checks passed, or performed an invalid memory access (undefined
behaviour in the C source, e.g. reading through a null pointer). -/
inductive Outcome where
  | ret (r : XrResult)
  | call (f : Downstream)
  | crash
  deriving DecidableEq

/-- Device input names (`enum xrt_input_name`) that the file consults. -/
inductive XrtInputName where
  | genericHandTrackingLeft
  | genericHandTrackingRight
  | htcEyeFaceTracking
  | htcLipFaceTracking
  | fbBodyTracking
  | metaFullBodyTracking
  | otherInput (n : Nat)
  deriving DecidableEq

/-- The slice of `struct xrt_device` the file reads: capability flags and
the list of input names. -/
structure XrtDevice where
  hand_tracking_supported : Bool
  face_tracking_supported : Bool
  body_tracking_supported : Bool
  body_tracking_fidelity_supported : Bool
  inputs : List XrtInputName
  deriving DecidableEq

/-- The slice of the system compositor info the file reads
(`sess->sys->xsysc->info`): the supported display refresh rates.  The
count is the length of the list. -/
structure XrtSystemCompositorInfo where
  refresh_rates_hz : List Rat
  deriving DecidableEq

/-- The slice of `struct oxr_instance` the file reads.  The
`supported_view_configs` field and the capability flags model,
from the spec, the view-configuration check and the
`oxr_system_get_*_support` queries (section 4.5 step 2: "Verify the
system reports capability support for the specific requested variant"),
which live outside this source file. -/
structure OxrInst where
  supported_view_configs : List Nat
  ext_EXT_hand_tracking : Bool
  ext_HTC_facial_tracking : Bool
  ext_FB_body_tracking : Bool
  ext_META_body_tracking_full_body : Bool
  ext_META_body_tracking_fidelity : Bool
  ext_KHR_visibility_mask : Bool
  ext_EXT_performance_settings : Bool
  ext_KHR_android_thread_settings : Bool
  hand_tracking_support : Bool
  face_eye_support : Bool
  face_lip_support : Bool
  body_tracking_fb_support : Bool
  full_body_tracking_meta_support : Bool
  deriving DecidableEq

/-- The slice of `struct oxr_system` the file reads: the primary view
configuration type, the optional compositor object (`none` is a headless
system), and the device role table consulted by `GET_XDEV_BY_ROLE`. -/
structure OxrSystem where
  inst : OxrInst
  view_config_type : Nat
  xsysc : Option XrtSystemCompositorInfo
  hand_tracking_left : Option XrtDevice
  hand_tracking_right : Option XrtDevice
  face : Option XrtDevice
  body : Option XrtDevice
  deriving DecidableEq

/-- The slice of `struct oxr_session` the file reads: its system and the
`has_begun` and session-lost flags.  `lost` is true exactly when the
session has transitioned to the terminal `Lost` state. -/
structure OxrSession where
  sys : OxrSystem
  has_begun : Bool
  lost : Bool
  deriving DecidableEq

/-- An `oxr_space` as far as this file is concerned: an opaque live
reference-space handle (only its validity is consulted here). -/
structure OxrSpace where
  tag : Nat
  deriving DecidableEq

/-- `struct oxr_hand_tracker`: parent session, requested hand and joint
set, and the device binding resolved at creation time (`none` when no
device was bound). -/
structure OxrHandTracker where
  sess : OxrSession
  hand : Nat
  hand_joint_set : Nat
  xdev : Option XrtDevice
  input_name : Option XrtInputName
  deriving DecidableEq

/-- `struct oxr_facial_tracker_htc`. -/
structure OxrFacialTrackerHTC where
  sess : OxrSession
  xdev : Option XrtDevice
  facial_tracking_type : Nat
  deriving DecidableEq

/-- `enum xrt_body_joint_set_type_fb`. -/
inductive BodyJointSetType where
  | defaultFb
  | fullBodyMeta
  | unknown
  deriving DecidableEq

/-- `struct oxr_body_tracker_fb`. -/
structure OxrBodyTrackerFB where
  sess : OxrSession
  xdev : Option XrtDevice
  joint_set_type : BodyJointSetType
  deriving DecidableEq

/-! Constants from the OpenXR and xrt headers used by the file. -/

def XR_HAND_LEFT_EXT : Nat := 1
def XR_HAND_RIGHT_EXT : Nat := 2
def XR_HAND_JOINT_SET_DEFAULT_EXT : Nat := 0
def XR_HAND_JOINT_COUNT_EXT : Nat := 26
def XRT_BODY_JOINT_COUNT_FB : Nat := 70
def XRT_FULL_BODY_JOINT_COUNT_META : Nat := 84
def XRT_FACIAL_EXPRESSION_EYE_COUNT_HTC : Nat := 14
def XRT_FACIAL_EXPRESSION_LIP_COUNT_HTC : Nat := 37
def XR_FACIAL_TRACKING_TYPE_EYE_DEFAULT_HTC : Nat := 1
def XR_FACIAL_TRACKING_TYPE_LIP_DEFAULT_HTC : Nat := 2
def XR_BODY_JOINT_SET_DEFAULT_FB : Nat := 0
def XR_BODY_JOINT_SET_FULL_BODY_META : Nat := 1000274000

/-- The two-decimal truncation `(int)(x * 100.0f)` used by
`oxr_xrRequestDisplayRefreshRateFB`: multiplication by 100 followed by a
C cast to `int` (truncation toward zero), computed on the reduced
numerator and denominator of the exact rational. -/
def truncCent (q : Rat) : Int :=
  q.num.sign * ((100 * q.num.natAbs) / q.den : Nat)

/-!  Refresh rate entrypoints (`XR_FB_display_refresh_rate`). -/

/-- Result memory of `oxr_xrEnumerateDisplayRefreshRatesFB`: the value
written through `displayRefreshRateCountOutput` (if any) and the rates
written into the caller's array. -/
structure EnumOut where
  countOutput : Option Nat
  ratesWritten : List Rat
  deriving DecidableEq

/-- Modelled from the spec: the two-call enumeration idiom
(`OXR_TWO_CALL_HELPER`, `oxr_two_call.h`, not part of the source file).
Spec section 6: "a call with output-buffer capacity 0 returns only the
total available count; a call with nonzero capacity writes up to that
many elements and returns the count actually written; capacity less than
available count is not an error — it is a partial read." -/
def twoCallHelper (capacityInput : Nat) (countOutputNull : Bool) (data : List Rat) :
    Outcome × EnumOut :=
  if countOutputNull then
    (.ret .errorValidationFailure, ⟨none, []⟩)
  else if capacityInput = 0 then
    (.ret .success, ⟨some data.length, []⟩)
  else
    let written := data.take capacityInput
    (.ret .success, ⟨some written.length, written⟩)

/-- `oxr_xrEnumerateDisplayRefreshRatesFB`: session handle check, lost
check, headless early-out writing a zero count, otherwise the two-call
helper over `sess->sys->xsysc->info.refresh_rates_hz`. -/
def oxr_xrEnumerateDisplayRefreshRatesFB (sess? : Option OxrSession)
    (capacityInput : Nat) (countOutputNull : Bool) : Outcome × EnumOut :=
  match sess? with
  | none => (.ret .errorHandleInvalid, ⟨none, []⟩)
  | some sess =>
    if sess.lost then (.ret .errorSessionLost, ⟨none, []⟩)
    else
      match sess.sys.xsysc with
      | none =>
        -- headless: writes `*displayRefreshRateCountOutput = 0` with no
        -- null check on the pointer
        if countOutputNull then (.crash, ⟨none, []⟩)
        else (.ret .success, ⟨some 0, []⟩)
      | some xsysc => twoCallHelper capacityInput countOutputNull xsysc.refresh_rates_hz

/-- `oxr_xrGetDisplayRefreshRateFB`: session handle check, lost check,
headless early-out writing rate 0, runtime failure on an empty rate
list, otherwise dispatch to `oxr_session_get_display_refresh_rate`.
The second component is the value written through `displayRefreshRate`. -/
def oxr_xrGetDisplayRefreshRateFB (sess? : Option OxrSession) (outNull : Bool) :
    Outcome × Option Rat :=
  match sess? with
  | none => (.ret .errorHandleInvalid, none)
  | some sess =>
    if sess.lost then (.ret .errorSessionLost, none)
    else
      match sess.sys.xsysc with
      | none =>
        -- headless: writes `*displayRefreshRate = 0.0f` with no null check
        if outNull then (.crash, none)
        else (.ret .success, some 0)
      | some xsysc =>
        if xsysc.refresh_rates_hz.length < 1 then (.ret .errorRuntimeFailure, none)
        else (.call .sessionGetDisplayRefreshRate, none)

/-- `oxr_xrRequestDisplayRefreshRateFB`: session handle check, lost
check, the `displayRefreshRate == 0.0f` early success, then the
two-decimal truncation search over the supported rates.  The search
dereferences `sess->sys->xsysc` without a headless check: on a headless
system with a nonzero rate the C code reads through a null pointer. -/
def oxr_xrRequestDisplayRefreshRateFB (sess? : Option OxrSession) (rate : Rat) : Outcome :=
  match sess? with
  | none => .ret .errorHandleInvalid
  | some sess =>
    if sess.lost then .ret .errorSessionLost
    else if rate = 0 then .ret .success
    else
      match sess.sys.xsysc with
      | none => .crash
      | some xsysc =>
        if xsysc.refresh_rates_hz.any (fun r => truncCent rate == truncCent r) then
          .call .sessionRequestDisplayRefreshRate
        else
          .ret .errorDisplayRefreshRateUnsupportedFB

/-! Session lifecycle entrypoints. -/

/-- Modelled from the spec: `oxr_handle_destroy` (handle registry,
section 4.2) — destroying a live handle invokes its destroy callback,
removes it from the parent and succeeds; children are destroyed first.
Only the result code is relevant to the entrypoints of this file. -/
def oxr_handle_destroy : XrResult := .success

/-- Modelled from the spec: `oxr_session_begin` (section 4.3) — "on
success sets `has_begun = true` and advances the runtime toward
`Synchronized`". -/
def oxr_session_begin (sess : OxrSession) : XrResult × OxrSession :=
  (.success, { sess with has_begun := true })

/-- `oxr_xrDestroySession`: session handle check, removal from the
instance session list, then `oxr_handle_destroy`.  There is no
session-lost check: destruction always proceeds. -/
def oxr_xrDestroySession (sess? : Option OxrSession) : Outcome :=
  match sess? with
  | none => .ret .errorHandleInvalid
  | some _ => .ret oxr_handle_destroy

/-- An `XrSessionBeginInfo`: structure tag and the requested primary view
configuration type. -/
structure SessionBeginInfo where
  ty : XrStructTag
  primaryViewConfigurationType : Nat
  deriving DecidableEq

/-- `oxr_xrBeginSession`: session handle check, lost check, `beginInfo`
tag check, view-configuration-type check against the instance, the
`sess->has_begun` check returning `XR_ERROR_SESSION_RUNNING`, then
`oxr_session_begin`.  The second component is the session state after the
call (unchanged on every early return). -/
def oxr_xrBeginSession (sess? : Option OxrSession) (info? : Option SessionBeginInfo) :
    Outcome × Option OxrSession :=
  match sess? with
  | none => (.ret .errorHandleInvalid, none)
  | some sess =>
    if sess.lost then (.ret .errorSessionLost, some sess)
    else
      match info? with
      | none => (.ret .errorValidationFailure, some sess)
      | some info =>
        if info.ty ≠ .sessionBeginInfo then (.ret .errorValidationFailure, some sess)
        else if ¬ sess.sys.inst.supported_view_configs.contains info.primaryViewConfigurationType then
          (.ret .errorViewConfigurationTypeUnsupported, some sess)
        else if sess.has_begun then (.ret .errorSessionRunning, some sess)
        else
          let (r, sess2) := oxr_session_begin sess
          (.ret r, some sess2)

/-- `oxr_xrEndSession`: session handle check, lost check, running check,
then dispatch to `oxr_session_end`. -/
def oxr_xrEndSession (sess? : Option OxrSession) : Outcome :=
  match sess? with
  | none => .ret .errorHandleInvalid
  | some sess =>
    if sess.lost then .ret .errorSessionLost
    else if ¬ sess.has_begun then .ret .errorSessionNotRunning
    else .call .sessionEnd

/-- `oxr_xrWaitFrame`: session handle check, lost check, running check,
optional `frameWaitInfo` tag check, `frameState` tag and null checks,
then dispatch to `oxr_session_frame_wait`.  Tag-only input structures are
modelled as their tags; `none` is a null pointer. -/
def oxr_xrWaitFrame (sess? : Option OxrSession) (frameWaitInfo? : Option XrStructTag)
    (frameState? : Option XrStructTag) : Outcome :=
  match sess? with
  | none => .ret .errorHandleInvalid
  | some sess =>
    if sess.lost then .ret .errorSessionLost
    else if ¬ sess.has_begun then .ret .errorSessionNotRunning
    else if frameWaitInfo?.any (· ≠ .frameWaitInfo) then .ret .errorValidationFailure
    else
      match frameState? with
      | none => .ret .errorValidationFailure
      | some t =>
        if t ≠ .frameState then .ret .errorValidationFailure
        else .call .sessionFrameWait

/-- `oxr_xrBeginFrame`: session handle check, lost check, running check,
optional `frameBeginInfo` tag check, then dispatch to
`oxr_session_frame_begin`. -/
def oxr_xrBeginFrame (sess? : Option OxrSession) (frameBeginInfo? : Option XrStructTag) :
    Outcome :=
  match sess? with
  | none => .ret .errorHandleInvalid
  | some sess =>
    if sess.lost then .ret .errorSessionLost
    else if ¬ sess.has_begun then .ret .errorSessionNotRunning
    else if frameBeginInfo?.any (· ≠ .frameBeginInfo) then .ret .errorValidationFailure
    else .call .sessionFrameBegin

/-- `oxr_xrEndFrame`: session handle check, lost check, running check,
`frameEndInfo` tag and null check, then dispatch to
`oxr_session_frame_end`. -/
def oxr_xrEndFrame (sess? : Option OxrSession) (frameEndInfo? : Option XrStructTag) :
    Outcome :=
  match sess? with
  | none => .ret .errorHandleInvalid
  | some sess =>
    if sess.lost then .ret .errorSessionLost
    else if ¬ sess.has_begun then .ret .errorSessionNotRunning
    else
      match frameEndInfo? with
      | none => .ret .errorValidationFailure
      | some t =>
        if t ≠ .frameEndInfo then .ret .errorValidationFailure
        else .call .sessionFrameEnd

/-- `oxr_xrRequestExitSession`: session handle check, lost check, running
check, then dispatch to `oxr_session_request_exit`. -/
def oxr_xrRequestExitSession (sess? : Option OxrSession) : Outcome :=
  match sess? with
  | none => .ret .errorHandleInvalid
  | some sess =>
    if sess.lost then .ret .errorSessionLost
    else if ¬ sess.has_begun then .ret .errorSessionNotRunning
    else .call .sessionRequestExit

/-- An `XrViewLocateInfo`. -/
structure ViewLocateInfo where
  ty : XrStructTag
  viewConfigurationType : Nat
  displayTime : Int
  space : Option OxrSpace
  deriving DecidableEq

/-- `oxr_xrLocateViews`: session handle check, lost check, locate-info
tag check, space check, view-state tag check, view-configuration-type
check, the count-only versus fill mode null checks, per-element view tag
checks, the positive-time check and the session view configuration
comparison, then dispatch to `oxr_session_locate_views`.  The caller
array of views is modelled as the list of its element tags. -/
def oxr_xrLocateViews (sess? : Option OxrSession) (vli? : Option ViewLocateInfo)
    (viewState? : Option XrStructTag) (viewCapacityInput : Nat)
    (viewCountOutputNull : Bool) (views? : Option (List XrStructTag)) : Outcome :=
  match sess? with
  | none => .ret .errorHandleInvalid
  | some sess =>
    if sess.lost then .ret .errorSessionLost
    else
      match vli? with
      | none => .ret .errorValidationFailure
      | some vli =>
        if vli.ty ≠ .viewLocateInfo then .ret .errorValidationFailure
        else if vli.space.isNone then .ret .errorHandleInvalid
        else
          match viewState? with
          | none => .ret .errorValidationFailure
          | some vsTag =>
            if vsTag ≠ .viewState then .ret .errorValidationFailure
            else if ¬ sess.sys.inst.supported_view_configs.contains vli.viewConfigurationType then
              .ret .errorViewConfigurationTypeUnsupported
            else if viewCapacityInput = 0 ∧ viewCountOutputNull then .ret .errorValidationFailure
            else if viewCapacityInput ≠ 0 ∧ views?.isNone then .ret .errorValidationFailure
            else if ¬ ((views?.getD []).take viewCapacityInput).all (· = .view) then
              .ret .errorValidationFailure
            else if vli.displayTime ≤ 0 then .ret .errorTimeInvalid
            else if vli.viewConfigurationType ≠ sess.sys.view_config_type then
              .ret .errorViewConfigurationTypeUnsupported
            else .call .sessionLocateViews

/-- An `XrVisibilityMaskKHR` as caller memory: the structure tag, the two
capacities, the two count outputs, and whether the two array pointers are
null. -/
structure VisibilityMask where
  ty : XrStructTag
  vertexCapacityInput : Nat
  vertexCountOutput : Nat
  indexCapacityInput : Nat
  indexCountOutput : Nat
  verticesNull : Bool
  indicesNull : Bool
  deriving DecidableEq

/-- `oxr_xrGetVisibilityMaskKHR`: session handle check, lost check,
extension check, then — before any further validation — the writes
`visibilityMask->vertexCountOutput = 0` and
`visibilityMask->indexCountOutput = 0` (with no null check on the
pointer), followed by the view-configuration, view-index, mask-type,
structure-tag and array null checks, then dispatch to
`oxr_session_get_visibility_mask`.  The second component is the caller
structure after the call. -/
def oxr_xrGetVisibilityMaskKHR (sess? : Option OxrSession) (viewConfigurationType : Nat)
    (viewIndex : Nat) (visibilityMaskType : Nat) (mask? : Option VisibilityMask) :
    Outcome × Option VisibilityMask :=
  match sess? with
  | none => (.ret .errorHandleInvalid, mask?)
  | some sess =>
    if sess.lost then (.ret .errorSessionLost, mask?)
    else if ¬ sess.sys.inst.ext_KHR_visibility_mask then (.ret .errorFunctionUnsupported, mask?)
    else
      match mask? with
      | none => (.crash, none)
      | some mask0 =>
        let mask := { mask0 with vertexCountOutput := 0, indexCountOutput := 0 }
        if ¬ sess.sys.inst.supported_view_configs.contains viewConfigurationType then
          (.ret .errorViewConfigurationTypeUnsupported, some mask)
        else if viewConfigurationType ≠ sess.sys.view_config_type then
          (.ret .errorViewConfigurationTypeUnsupported, some mask)
        else if 2 ≤ viewIndex then (.ret .errorValidationFailure, some mask)
        else if visibilityMaskType ≠ 1 ∧ visibilityMaskType ≠ 2 ∧ visibilityMaskType ≠ 3 then
          (.ret .errorValidationFailure, some mask)
        else if mask.ty ≠ .visibilityMaskKHR then (.ret .errorValidationFailure, some mask)
        else if mask.vertexCapacityInput ≠ 0 ∧ mask.verticesNull then
          (.ret .errorValidationFailure, some mask)
        else if mask.indexCapacityInput ≠ 0 ∧ mask.indicesNull then
          (.ret .errorValidationFailure, some mask)
        else (.call .sessionGetVisibilityMask, some mask)

/-- `oxr_xrPerfSettingsSetPerformanceLevelEXT`: session handle check,
lost check, extension check, domain and level range checks, then
dispatch to `oxr_session_set_perf_level`. -/
def oxr_xrPerfSettingsSetPerformanceLevelEXT (sess? : Option OxrSession)
    (domain : Nat) (level : Nat) : Outcome :=
  match sess? with
  | none => .ret .errorHandleInvalid
  | some sess =>
    if sess.lost then .ret .errorSessionLost
    else if ¬ sess.sys.inst.ext_EXT_performance_settings then .ret .errorFunctionUnsupported
    else if domain ≠ 1 ∧ domain ≠ 2 then .ret .errorValidationFailure
    else if level ≠ 0 ∧ level ≠ 25 ∧ level ≠ 50 ∧ level ≠ 75 then .ret .errorValidationFailure
    else .call .sessionSetPerfLevel

/-- `oxr_xrThermalGetTemperatureTrendEXT`: session handle check, lost
check, then an unconditional `XR_ERROR_HANDLE_INVALID` ("Not
implemented"). -/
def oxr_xrThermalGetTemperatureTrendEXT (sess? : Option OxrSession) : Outcome :=
  match sess? with
  | none => .ret .errorHandleInvalid
  | some sess =>
    if sess.lost then .ret .errorSessionLost
    else .ret .errorHandleInvalid

/-- `oxr_xrSetAndroidApplicationThreadKHR`: session handle check, lost
check, thread-type range check, extension check (in this order), then
dispatch to `oxr_session_android_thread_settings`. -/
def oxr_xrSetAndroidApplicationThreadKHR (sess? : Option OxrSession)
    (threadType : Nat) (_threadId : Nat) : Outcome :=
  match sess? with
  | none => .ret .errorHandleInvalid
  | some sess =>
    if sess.lost then .ret .errorSessionLost
    else if threadType ≠ 1 ∧ threadType ≠ 2 ∧ threadType ≠ 3 ∧ threadType ≠ 4 then
      .ret .errorValidationFailure
    else if ¬ sess.sys.inst.ext_KHR_android_thread_settings then .ret .errorFunctionUnsupported
    else .call .sessionAndroidThreadSettings

/-! Hand tracking (`XR_EXT_hand_tracking`) and force feedback
(`XR_MNDX_force_feedback_curl`). -/

/-- An `XrHandTrackerCreateInfoEXT`. -/
structure HandTrackerCreateInfo where
  ty : XrStructTag
  hand : Nat
  handJointSet : Nat
  deriving DecidableEq

/-- `oxr_hand_tracker_create`: the system-level hand tracking support
check (`oxr_system_get_hand_tracking_support`, modelled from the spec as
an instance capability flag), handle allocation, role lookup for the
requested hand, and — only when a device is bound and reports hand
tracking support — the search for the matching hand tracking input.  A
missing or unsupported device does not fail the call: the tracker is
created with `xdev = none` and the function returns success. -/
def oxr_hand_tracker_create (sess : OxrSession) (ci : HandTrackerCreateInfo) :
    XrResult × Option OxrHandTracker :=
  if ¬ sess.sys.inst.hand_tracking_support then
    (.errorFeatureUnsupported, none)
  else
    let tracker0 : OxrHandTracker :=
      { sess := sess, hand := ci.hand, hand_joint_set := ci.handJointSet
        xdev := none, input_name := none }
    let xdev? : Option XrtDevice :=
      if ci.hand = XR_HAND_LEFT_EXT then sess.sys.hand_tracking_left
      else if ci.hand = XR_HAND_RIGHT_EXT then sess.sys.hand_tracking_right
      else none
    let tracker :=
      match xdev? with
      | none => tracker0
      | some d =>
        if d.hand_tracking_supported then
          match d.inputs.find? (fun nm =>
              (nm == .genericHandTrackingLeft && ci.hand == XR_HAND_LEFT_EXT) ||
              (nm == .genericHandTrackingRight && ci.hand == XR_HAND_RIGHT_EXT)) with
          | some nm => { tracker0 with xdev := some d, input_name := some nm }
          | none => tracker0
        else tracker0
    (.success, some tracker)

/-- `oxr_xrCreateHandTrackerEXT`: session handle check, lost check,
create-info tag check, output pointer null check, extension check, hand
value check, then `oxr_hand_tracker_create`.  The second component is
the created tracker, `none` when no handle was created. -/
def oxr_xrCreateHandTrackerEXT (sess? : Option OxrSession)
    (ci? : Option HandTrackerCreateInfo) (outNull : Bool) :
    Outcome × Option OxrHandTracker :=
  match sess? with
  | none => (.ret .errorHandleInvalid, none)
  | some sess =>
    if sess.lost then (.ret .errorSessionLost, none)
    else
      match ci? with
      | none => (.ret .errorValidationFailure, none)
      | some ci =>
        if ci.ty ≠ .handTrackerCreateInfoEXT then (.ret .errorValidationFailure, none)
        else if outNull then (.ret .errorValidationFailure, none)
        else if ¬ sess.sys.inst.ext_EXT_hand_tracking then (.ret .errorFunctionUnsupported, none)
        else if ci.hand ≠ XR_HAND_LEFT_EXT ∧ ci.hand ≠ XR_HAND_RIGHT_EXT then
          (.ret .errorValidationFailure, none)
        else
          let (r, tracker?) := oxr_hand_tracker_create sess ci
          if r = .success then (.ret .success, tracker?) else (.ret r, none)

/-- `oxr_xrDestroyHandTrackerEXT`: tracker handle check, then
`oxr_handle_destroy`.  No session-lost check is performed. -/
def oxr_xrDestroyHandTrackerEXT (tracker? : Option OxrHandTracker) : Outcome :=
  match tracker? with
  | none => .ret .errorHandleInvalid
  | some _ => .ret oxr_handle_destroy

/-- An `XrHandJointsLocateInfoEXT`. -/
structure HandJointsLocateInfo where
  ty : XrStructTag
  baseSpace : Option OxrSpace
  time : Int
  deriving DecidableEq

/-- An `XrHandJointVelocitiesEXT` chained output structure. -/
structure HandJointVelocities where
  jointCount : Nat
  deriving DecidableEq

/-- An `XrHandJointLocationsEXT` as caller memory: tag, whether the joint
array pointer is null, the caller joint capacity, and the chained
velocities structure if present. -/
structure HandJointLocations where
  ty : XrStructTag
  jointLocationsNull : Bool
  jointCount : Nat
  velocities : Option HandJointVelocities
  deriving DecidableEq

/-- `oxr_xrLocateHandJointsEXT`: tracker handle check, lost check,
locate-info and locations tag checks, joint array null check, base space
check, positive-time check, the default-joint-set exact joint count
check (`XR_ERROR_VALIDATION_FAILURE`), the chained velocities joint
count checks, then dispatch to `oxr_session_hand_joints`. -/
def oxr_xrLocateHandJointsEXT (tracker? : Option OxrHandTracker)
    (li? : Option HandJointsLocateInfo) (locs? : Option HandJointLocations) : Outcome :=
  match tracker? with
  | none => .ret .errorHandleInvalid
  | some tracker =>
    if tracker.sess.lost then .ret .errorSessionLost
    else
      match li? with
      | none => .ret .errorValidationFailure
      | some li =>
        if li.ty ≠ .handJointsLocateInfoEXT then .ret .errorValidationFailure
        else
          match locs? with
          | none => .ret .errorValidationFailure
          | some locs =>
            if locs.ty ≠ .handJointLocationsEXT then .ret .errorValidationFailure
            else if locs.jointLocationsNull then .ret .errorValidationFailure
            else if li.baseSpace.isNone then .ret .errorHandleInvalid
            else if li.time ≤ 0 then .ret .errorTimeInvalid
            else if tracker.hand_joint_set = XR_HAND_JOINT_SET_DEFAULT_EXT ∧
                locs.jointCount ≠ XR_HAND_JOINT_COUNT_EXT then
              .ret .errorValidationFailure
            else
              match locs.velocities with
              | none => .call .sessionHandJoints
              | some vel =>
                if vel.jointCount = 0 then .ret .errorValidationFailure
                else if tracker.hand_joint_set = XR_HAND_JOINT_SET_DEFAULT_EXT ∧
                    vel.jointCount ≠ XR_HAND_JOINT_COUNT_EXT then
                  .ret .errorValidationFailure
                else .call .sessionHandJoints

/-- `oxr_xrApplyForceFeedbackCurlMNDX`: tracker handle check and
locations tag check, then dispatch to
`oxr_session_apply_force_feedback`.  There is no session-lost check in
this entrypoint. -/
def oxr_xrApplyForceFeedbackCurlMNDX (tracker? : Option OxrHandTracker)
    (locations? : Option XrStructTag) : Outcome :=
  match tracker? with
  | none => .ret .errorHandleInvalid
  | some _ =>
    match locations? with
    | none => .ret .errorValidationFailure
    | some t =>
      if t ≠ .forceFeedbackCurlApplyLocationsMNDX then .ret .errorValidationFailure
      else .call .sessionApplyForceFeedback

/-! Facial tracking (`XR_HTC_facial_tracking`). -/

/-- An `XrFacialTrackerCreateInfoHTC`. -/
structure FacialTrackerCreateInfo where
  ty : XrStructTag
  facialTrackingType : Nat
  deriving DecidableEq

/-- `oxr_facial_tracking_type_htc_to_input_name`: lip maps to the lip
input, everything else (eye and unknown values) to the eye input. -/
def oxr_facial_tracking_type_htc_to_input_name (ftType : Nat) : XrtInputName :=
  if ftType = XR_FACIAL_TRACKING_TYPE_LIP_DEFAULT_HTC then .htcLipFaceTracking
  else .htcEyeFaceTracking

/-- `oxr_facial_tracker_htc_create`: the eye/lip system support checks
(`oxr_system_get_face_tracking_htc_support`, modelled from the spec as
instance capability flags), the face role lookup failing with
`XR_ERROR_FEATURE_UNSUPPORTED` when no device is bound, the device
capability check, then handle allocation. -/
def oxr_facial_tracker_htc_create (sess : OxrSession) (ci : FacialTrackerCreateInfo) :
    XrResult × Option OxrFacialTrackerHTC :=
  let facial_tracking_type := ci.facialTrackingType
  if facial_tracking_type = XR_FACIAL_TRACKING_TYPE_EYE_DEFAULT_HTC ∧
      ¬ sess.sys.inst.face_eye_support then
    (.errorFeatureUnsupported, none)
  else if facial_tracking_type = XR_FACIAL_TRACKING_TYPE_LIP_DEFAULT_HTC ∧
      ¬ sess.sys.inst.face_lip_support then
    (.errorFeatureUnsupported, none)
  else
    match sess.sys.face with
    | none => (.errorFeatureUnsupported, none)
    | some xdev =>
      if ¬ xdev.face_tracking_supported then (.errorFeatureUnsupported, none)
      else
        (.success, some { sess := sess, xdev := some xdev
                          facial_tracking_type := facial_tracking_type })

/-- `oxr_xrCreateFacialTrackerHTC`: session handle check, lost check,
create-info tag check, extension check, then
`oxr_facial_tracker_htc_create`. -/
def oxr_xrCreateFacialTrackerHTC (sess? : Option OxrSession)
    (ci? : Option FacialTrackerCreateInfo) : Outcome × Option OxrFacialTrackerHTC :=
  match sess? with
  | none => (.ret .errorHandleInvalid, none)
  | some sess =>
    if sess.lost then (.ret .errorSessionLost, none)
    else
      match ci? with
      | none => (.ret .errorValidationFailure, none)
      | some ci =>
        if ci.ty ≠ .facialTrackerCreateInfoHTC then (.ret .errorValidationFailure, none)
        else if ¬ sess.sys.inst.ext_HTC_facial_tracking then (.ret .errorFunctionUnsupported, none)
        else
          let (r, tracker?) := oxr_facial_tracker_htc_create sess ci
          if r = .success then (.ret .success, tracker?) else (.ret r, none)

/-- `oxr_xrDestroyFacialTrackerHTC`: tracker handle check, then
`oxr_handle_destroy`.  No session-lost check is performed. -/
def oxr_xrDestroyFacialTrackerHTC (tracker? : Option OxrFacialTrackerHTC) : Outcome :=
  match tracker? with
  | none => .ret .errorHandleInvalid
  | some _ => .ret oxr_handle_destroy

/-- An `XrFacialExpressionsHTC` as caller memory. -/
structure FacialExpressionsIn where
  ty : XrStructTag
  expressionCount : Nat
  expressionWeightingsNull : Bool
  deriving DecidableEq

/-- The device answer of `xrt_device_get_face_tracking`. -/
structure FacialExpressionSetResult where
  is_active : Bool
  sample_time_ns : Int
  deriving DecidableEq

/-- The raw-argument environment of `oxr_xrGetFacialExpressionsHTC`.  The
entrypoint receives two raw word arguments; `trackerAt` is the handle
decode performed by `OXR_VERIFY_FACE_TRACKER_HTC_AND_INIT_LOG` (modelled
from the spec, section 4.1: a raw value either decodes to a live facial
tracker handle or the check fails with `XR_ERROR_HANDLE_INVALID`) and
`exprAt` is the memory view of a raw value as an `XrFacialExpressionsHTC`
structure.  `monotonicToTs` models the time correlation collaborator
(`time_state_monotonic_to_ts_ns`), and `faceResult` the device answer. -/
structure FaceEnv where
  trackerAt : Nat → Option OxrFacialTrackerHTC
  exprAt : Nat → Option FacialExpressionsIn
  monotonicToTs : Int → Int
  faceResult : FacialExpressionSetResult

/-- The writes `oxr_xrGetFacialExpressionsHTC` performs into the caller
structure: the `isActive` flag, the sample time, and the number of
expression weights copied. -/
structure FaceWrites where
  isActive : Option Bool
  sampleTime : Option Int
  weightsCopied : Option Nat
  deriving DecidableEq

/-- No writes performed. -/
def FaceWrites.none3 : FaceWrites := ⟨none, none, none⟩

/-- `oxr_xrGetFacialExpressionsHTC`.  The C code passes the
`facialExpressions` argument — not the `facialTracker` argument — to the
face tracker handle verification macro; every check and every use of the
tracker goes through that decode, and `facialTracker` is never read.
After the handle check: lost check on the decoded tracker session, the
tracker `xdev` null check, the `facialExpressions` tag check, the
weightings array null check, the per-type minimum expression count
checks (`XR_ERROR_SIZE_INSUFFICIENT`), the device query, the inactive
early success, then the sample time and weights writes. -/
def oxr_xrGetFacialExpressionsHTC (env : FaceEnv) (_facialTracker : Nat)
    (facialExpressions : Nat) : Outcome × FaceWrites :=
  match env.trackerAt facialExpressions with
  | none => (.ret .errorHandleInvalid, .none3)
  | some tracker =>
    if tracker.sess.lost then (.ret .errorSessionLost, .none3)
    else if tracker.xdev.isNone then (.ret .errorValidationFailure, .none3)
    else
      match env.exprAt facialExpressions with
      | none => (.ret .errorValidationFailure, .none3)
      | some fe =>
        if fe.ty ≠ .facialExpressionsHTC then (.ret .errorValidationFailure, .none3)
        else if fe.expressionWeightingsNull then (.ret .errorValidationFailure, .none3)
        else if tracker.facial_tracking_type = XR_FACIAL_TRACKING_TYPE_EYE_DEFAULT_HTC ∧
            fe.expressionCount < XRT_FACIAL_EXPRESSION_EYE_COUNT_HTC then
          (.ret .errorSizeInsufficient, .none3)
        else if tracker.facial_tracking_type = XR_FACIAL_TRACKING_TYPE_LIP_DEFAULT_HTC ∧
            fe.expressionCount < XRT_FACIAL_EXPRESSION_LIP_COUNT_HTC then
          (.ret .errorSizeInsufficient, .none3)
        else
          let is_eye_tracking :=
            tracker.facial_tracking_type = XR_FACIAL_TRACKING_TYPE_EYE_DEFAULT_HTC
          let expression_count :=
            if is_eye_tracking then XRT_FACIAL_EXPRESSION_EYE_COUNT_HTC
            else XRT_FACIAL_EXPRESSION_LIP_COUNT_HTC
          let result := env.faceResult
          if result.is_active = false then
            (.ret .success, ⟨some false, none, none⟩)
          else
            (.ret .success,
             ⟨some true, some (env.monotonicToTs result.sample_time_ns),
              some expression_count⟩)

/-! Body tracking (`XR_FB_body_tracking`, `XR_META_body_tracking_full_body`,
`XR_META_body_tracking_fidelity`). -/

/-- An `XrBodyTrackerCreateInfoFB`. -/
structure BodyTrackerCreateInfo where
  ty : XrStructTag
  bodyJointSet : Nat
  deriving DecidableEq

/-- `oxr_to_xrt_body_joint_set_type_fb`. -/
def oxr_to_xrt_body_joint_set_type_fb (jointSet : Nat) : BodyJointSetType :=
  if jointSet = XR_BODY_JOINT_SET_FULL_BODY_META then .fullBodyMeta
  else if jointSet = XR_BODY_JOINT_SET_DEFAULT_FB then .defaultFb
  else .unknown

/-- `oxr_xrCreateBodyTrackerFB`: session handle check, lost check,
create-info tag check, `XR_FB_body_tracking` extension check, the
META-full-body extension check when that joint set is requested, the
system-level FB body tracking support check (modelled from the spec as
an instance capability flag), the joint-set conversion rejecting unknown
values, the META full body system support check, the body role lookup
failing with `XR_ERROR_FEATURE_UNSUPPORTED` when no device is bound or
the device lacks support, then handle allocation. -/
def oxr_xrCreateBodyTrackerFB (sess? : Option OxrSession)
    (ci? : Option BodyTrackerCreateInfo) : Outcome × Option OxrBodyTrackerFB :=
  match sess? with
  | none => (.ret .errorHandleInvalid, none)
  | some sess =>
    if sess.lost then (.ret .errorSessionLost, none)
    else
      match ci? with
      | none => (.ret .errorValidationFailure, none)
      | some ci =>
        if ci.ty ≠ .bodyTrackerCreateInfoFB then (.ret .errorValidationFailure, none)
        else if ¬ sess.sys.inst.ext_FB_body_tracking then (.ret .errorFunctionUnsupported, none)
        else if ci.bodyJointSet = XR_BODY_JOINT_SET_FULL_BODY_META ∧
            ¬ sess.sys.inst.ext_META_body_tracking_full_body then
          (.ret .errorFunctionUnsupported, none)
        else if ¬ sess.sys.inst.body_tracking_fb_support then
          (.ret .errorFeatureUnsupported, none)
        else
          let joint_set_type := oxr_to_xrt_body_joint_set_type_fb ci.bodyJointSet
          if joint_set_type = .unknown then (.ret .errorFeatureUnsupported, none)
          else if joint_set_type = .fullBodyMeta ∧
              ¬ sess.sys.inst.full_body_tracking_meta_support then
            (.ret .errorFeatureUnsupported, none)
          else
            match sess.sys.body with
            | none => (.ret .errorFeatureUnsupported, none)
            | some xdev =>
              if ¬ xdev.body_tracking_supported then (.ret .errorFeatureUnsupported, none)
              else
                (.ret .success,
                 some { sess := sess, xdev := some xdev, joint_set_type := joint_set_type })

/-- `oxr_xrDestroyBodyTrackerFB`: tracker handle check, then
`oxr_handle_destroy`.  No session-lost check is performed. -/
def oxr_xrDestroyBodyTrackerFB (tracker? : Option OxrBodyTrackerFB) : Outcome :=
  match tracker? with
  | none => .ret .errorHandleInvalid
  | some _ => .ret oxr_handle_destroy

/-- An `XrBodySkeletonFB` as caller memory: tag and joint capacity. -/
structure BodySkeletonIn where
  ty : XrStructTag
  jointCount : Nat
  deriving DecidableEq

/-- `oxr_xrGetBodySkeletonFB`: tracker handle check, lost check, tracker
`xdev` null check, skeleton tag check, device support check
(`XR_ERROR_FUNCTION_UNSUPPORTED`), joint capacity check, then the device
skeleton query (`none` models an `xrt` failure) and the copy loop.
`skeletonOk` abstracts the device answer of
`xrt_device_get_body_skeleton`. -/
def oxr_xrGetBodySkeletonFB (tracker? : Option OxrBodyTrackerFB)
    (skeleton? : Option BodySkeletonIn) (skeletonOk : Bool) : Outcome :=
  match tracker? with
  | none => .ret .errorHandleInvalid
  | some tracker =>
    if tracker.sess.lost then .ret .errorSessionLost
    else if tracker.xdev.isNone then .ret .errorValidationFailure
    else
      match skeleton? with
      | none => .ret .errorValidationFailure
      | some skeleton =>
        if skeleton.ty ≠ .bodySkeletonFB then .ret .errorValidationFailure
        else if ¬ (tracker.xdev.map (·.body_tracking_supported)).getD false then
          .ret .errorFunctionUnsupported
        else
          let body_joint_count :=
            if tracker.joint_set_type = .fullBodyMeta then XRT_FULL_BODY_JOINT_COUNT_META
            else XRT_BODY_JOINT_COUNT_FB
          if skeleton.jointCount < body_joint_count then .ret .errorValidationFailure
          else if ¬ skeletonOk then .ret .errorRuntimeFailure
          else .ret .success

/-- An `XrBodyJointsLocateInfoFB`. -/
structure BodyJointsLocateInfo where
  ty : XrStructTag
  baseSpace : Option OxrSpace
  time : Int
  deriving DecidableEq

/-- One entry of the caller `jointLocations` array.  Poses are not
modelled (no claim reads them); the location flags word is. -/
structure JointLocation where
  locationFlags : Nat
  deriving DecidableEq

/-- An `XrBodyJointLocationsFB` as caller memory.  `jointLocations` is
the caller array (`none` is a null pointer), `jointCount` its declared
capacity. -/
structure BodyJointLocations where
  ty : XrStructTag
  jointCount : Nat
  jointLocations : Option (List JointLocation)
  deriving DecidableEq

/-- One `xrt_space_relation` as far as the claims read it: the validity
flags bitmask. -/
structure Relation where
  relation_flags : Nat
  deriving DecidableEq

/-- The device answer of `xrt_device_get_body_joints`. -/
structure BodyJointSetResult where
  is_active : Bool
  sample_time_ns : Int
  confidence : Nat
  skeleton_changed_count : Nat
  joint_relations : List Relation
  deriving DecidableEq

/-- The writes `oxr_xrLocateBodyJointsFB` performs into the caller
structure, plus the final state of the caller joint array. -/
structure BodyLocWrites where
  isActive : Option Bool
  time : Option Int
  confidence : Option Nat
  skeletonChangedCount : Option Nat
  jointLocations : Option (List JointLocation)
  deriving DecidableEq

/-- `xrt_to_xr_space_location_flags`: bitmask conversion between the xrt
and OpenXR location flag words.  Modelled from the spec as the identity
on the flags word (the claims only compare flags words produced by the
same conversion, and the conversion maps zero to zero). -/
def xrt_to_xr_space_location_flags (flags : Nat) : Nat := flags

/-- The inactive-result write loop of `oxr_xrLocateBodyJointsFB`: the
location flags of the first `XRT_BODY_JOINT_COUNT_FB` entries of the
caller joint array cleared — the C loop bound is this fixed constant,
not the variant joint count. -/
def bodyInactiveClear (buf : List JointLocation) : List JointLocation :=
  buf.mapIdx (fun i j =>
    if i < XRT_BODY_JOINT_COUNT_FB then { j with locationFlags := 0 } else j)

/-- The active-result copy loop of `oxr_xrLocateBodyJointsFB`: the first
`body_joint_count` entries of the caller joint array receive the
converted per-joint location flags from the device result. -/
def bodyActiveCopy (bset : BodyJointSetResult) (body_joint_count : Nat)
    (buf : List JointLocation) : List JointLocation :=
  buf.mapIdx (fun i j =>
    if i < body_joint_count then
      let flags :=
        xrt_to_xr_space_location_flags ((bset.joint_relations.getD i ⟨0⟩).relation_flags)
      { j with locationFlags := flags }
    else j)

/-- `oxr_xrLocateBodyJointsFB`: tracker handle check, locate-info and
locations tag checks, lost check, tracker `xdev` null check, joint array
null check, base space check, device support check, joint capacity check
(`XR_ERROR_VALIDATION_FAILURE`), positive-time check, the device joint
query (`devResult = none` models an `xrt` failure), the base body pose
resolution (`basePose`, modelled from the spec as the externally
resolved device-to-base-space relation, `Except.error` a resolver
failure), then either the inactive result — `isActive = false` and the
location flags of the first `XRT_BODY_JOINT_COUNT_FB` entries cleared,
regardless of the tracker joint set variant — or the active copy of the
first `body_joint_count` entries. -/
def oxr_xrLocateBodyJointsFB (tracker? : Option OxrBodyTrackerFB)
    (li? : Option BodyJointsLocateInfo) (locs? : Option BodyJointLocations)
    (devResult? : Option BodyJointSetResult) (basePose : Except XrResult Relation)
    (monotonicToTs : Int → Int) : Outcome × BodyLocWrites :=
  let noWrites : BodyLocWrites := ⟨none, none, none, none, locs?.bind (·.jointLocations)⟩
  match tracker? with
  | none => (.ret .errorHandleInvalid, noWrites)
  | some tracker =>
    match li? with
    | none => (.ret .errorValidationFailure, noWrites)
    | some li =>
      if li.ty ≠ .bodyJointsLocateInfoFB then (.ret .errorValidationFailure, noWrites)
      else
        match locs? with
        | none => (.ret .errorValidationFailure, noWrites)
        | some locs =>
          if locs.ty ≠ .bodyJointLocationsFB then (.ret .errorValidationFailure, noWrites)
          else if tracker.sess.lost then (.ret .errorSessionLost, noWrites)
          else if tracker.xdev.isNone then (.ret .errorValidationFailure, noWrites)
          else if locs.jointLocations.isNone then (.ret .errorValidationFailure, noWrites)
          else if li.baseSpace.isNone then (.ret .errorHandleInvalid, noWrites)
          else if ¬ (tracker.xdev.map (·.body_tracking_supported)).getD false then
            (.ret .errorFunctionUnsupported, noWrites)
          else
            let is_meta_full_body := tracker.joint_set_type = .fullBodyMeta
            let body_joint_count :=
              if is_meta_full_body then XRT_FULL_BODY_JOINT_COUNT_META
              else XRT_BODY_JOINT_COUNT_FB
            if locs.jointCount < body_joint_count then
              (.ret .errorValidationFailure, noWrites)
            else if li.time ≤ 0 then (.ret .errorTimeInvalid, noWrites)
            else
              match devResult? with
              | none => (.ret .errorRuntimeFailure, noWrites)
              | some bset =>
                match basePose with
                | .error e =>
                  (.ret e, { noWrites with isActive := some false })
                | .ok T_base_body =>
                  let buf := (locs.jointLocations.getD [])
                  if ¬ bset.is_active ∨ T_base_body.relation_flags = 0 then
                    -- inactive: clears the flags of the first
                    -- XRT_BODY_JOINT_COUNT_FB entries only
                    (.ret .success,
                     { isActive := some false, time := none, confidence := none
                       skeletonChangedCount := none
                       jointLocations := some (bodyInactiveClear buf) })
                  else
                    (.ret .success,
                     { isActive := some true
                       time := some (monotonicToTs bset.sample_time_ns)
                       confidence := some bset.confidence
                       skeletonChangedCount := some bset.skeleton_changed_count
                       jointLocations := some (bodyActiveCopy bset body_joint_count buf) })

/-- `oxr_xrRequestBodyTrackingFidelityMETA`: tracker handle check, lost
check, tracker `xdev` null check, extension check, device fidelity
support check, then dispatch to the device operation. -/
def oxr_xrRequestBodyTrackingFidelityMETA (tracker? : Option OxrBodyTrackerFB)
    (_fidelity : Nat) : Outcome :=
  match tracker? with
  | none => .ret .errorHandleInvalid
  | some tracker =>
    if tracker.sess.lost then .ret .errorSessionLost
    else if tracker.xdev.isNone then .ret .errorValidationFailure
    else if ¬ tracker.sess.sys.inst.ext_META_body_tracking_fidelity then
      .ret .errorFunctionUnsupported
    else if ¬ (tracker.xdev.map (·.body_tracking_fidelity_supported)).getD false then
      .ret .errorFeatureUnsupported
    else .call .deviceSetBodyTrackingFidelity

/-! Enumeration of the session-targeted entrypoint calls of the file,
used for the claims that quantify over "every entrypoint call on a
session or one of its child tracker handles".  Each constructor carries
the decoded arguments of the corresponding entrypoint. -/

/-- One entrypoint call of the file, with its arguments.
(`oxr_xrCreateSession` takes an instance, not a session, and is not a
call on a session; it is therefore not part of this enumeration.) -/
inductive EntryCall where
  | destroySession (sess? : Option OxrSession)
  | beginSession (sess? : Option OxrSession) (info? : Option SessionBeginInfo)
  | endSession (sess? : Option OxrSession)
  | waitFrame (sess? : Option OxrSession) (frameWaitInfo? : Option XrStructTag)
      (frameState? : Option XrStructTag)
  | beginFrame (sess? : Option OxrSession) (frameBeginInfo? : Option XrStructTag)
  | endFrame (sess? : Option OxrSession) (frameEndInfo? : Option XrStructTag)
  | requestExitSession (sess? : Option OxrSession)
  | locateViews (sess? : Option OxrSession) (vli? : Option ViewLocateInfo)
      (viewState? : Option XrStructTag) (viewCapacityInput : Nat)
      (viewCountOutputNull : Bool) (views? : Option (List XrStructTag))
  | getVisibilityMaskKHR (sess? : Option OxrSession) (viewConfigurationType : Nat)
      (viewIndex : Nat) (visibilityMaskType : Nat) (mask? : Option VisibilityMask)
  | perfSettingsSetPerformanceLevelEXT (sess? : Option OxrSession) (domain : Nat) (level : Nat)
  | thermalGetTemperatureTrendEXT (sess? : Option OxrSession)
  | createHandTrackerEXT (sess? : Option OxrSession) (ci? : Option HandTrackerCreateInfo)
      (outNull : Bool)
  | destroyHandTrackerEXT (tracker? : Option OxrHandTracker)
  | locateHandJointsEXT (tracker? : Option OxrHandTracker) (li? : Option HandJointsLocateInfo)
      (locs? : Option HandJointLocations)
  | applyForceFeedbackCurlMNDX (tracker? : Option OxrHandTracker)
      (locations? : Option XrStructTag)
  | enumerateDisplayRefreshRatesFB (sess? : Option OxrSession) (capacityInput : Nat)
      (countOutputNull : Bool)
  | getDisplayRefreshRateFB (sess? : Option OxrSession) (outNull : Bool)
  | requestDisplayRefreshRateFB (sess? : Option OxrSession) (rate : Rat)
  | setAndroidApplicationThreadKHR (sess? : Option OxrSession) (threadType : Nat)
      (threadId : Nat)
  | createFacialTrackerHTC (sess? : Option OxrSession) (ci? : Option FacialTrackerCreateInfo)
  | destroyFacialTrackerHTC (tracker? : Option OxrFacialTrackerHTC)
  | getFacialExpressionsHTC (env : FaceEnv) (facialTracker : Nat) (facialExpressions : Nat)
  | createBodyTrackerFB (sess? : Option OxrSession) (ci? : Option BodyTrackerCreateInfo)
  | destroyBodyTrackerFB (tracker? : Option OxrBodyTrackerFB)
  | getBodySkeletonFB (tracker? : Option OxrBodyTrackerFB) (skeleton? : Option BodySkeletonIn)
      (skeletonOk : Bool)
  | locateBodyJointsFB (tracker? : Option OxrBodyTrackerFB)
      (li? : Option BodyJointsLocateInfo) (locs? : Option BodyJointLocations)
      (devResult? : Option BodyJointSetResult) (basePose : Except XrResult Relation)
      (monotonicToTs : Int → Int)
  | requestBodyTrackingFidelityMETA (tracker? : Option OxrBodyTrackerFB) (fidelity : Nat)

/-- Run one entrypoint call; entrypoints that also produce output memory
are projected to their result outcome. -/
def runEntry : EntryCall → Outcome
  | .destroySession sess? => oxr_xrDestroySession sess?
  | .beginSession sess? info? => (oxr_xrBeginSession sess? info?).1
  | .endSession sess? => oxr_xrEndSession sess?
  | .waitFrame sess? fwi? fs? => oxr_xrWaitFrame sess? fwi? fs?
  | .beginFrame sess? fbi? => oxr_xrBeginFrame sess? fbi?
  | .endFrame sess? fei? => oxr_xrEndFrame sess? fei?
  | .requestExitSession sess? => oxr_xrRequestExitSession sess?
  | .locateViews sess? vli? vs? cap conull views? =>
      oxr_xrLocateViews sess? vli? vs? cap conull views?
  | .getVisibilityMaskKHR sess? vct vi mt mask? =>
      (oxr_xrGetVisibilityMaskKHR sess? vct vi mt mask?).1
  | .perfSettingsSetPerformanceLevelEXT sess? domain level =>
      oxr_xrPerfSettingsSetPerformanceLevelEXT sess? domain level
  | .thermalGetTemperatureTrendEXT sess? => oxr_xrThermalGetTemperatureTrendEXT sess?
  | .createHandTrackerEXT sess? ci? outNull =>
      (oxr_xrCreateHandTrackerEXT sess? ci? outNull).1
  | .destroyHandTrackerEXT tracker? => oxr_xrDestroyHandTrackerEXT tracker?
  | .locateHandJointsEXT tracker? li? locs? => oxr_xrLocateHandJointsEXT tracker? li? locs?
  | .applyForceFeedbackCurlMNDX tracker? locations? =>
      oxr_xrApplyForceFeedbackCurlMNDX tracker? locations?
  | .enumerateDisplayRefreshRatesFB sess? cap conull =>
      (oxr_xrEnumerateDisplayRefreshRatesFB sess? cap conull).1
  | .getDisplayRefreshRateFB sess? outNull => (oxr_xrGetDisplayRefreshRateFB sess? outNull).1
  | .requestDisplayRefreshRateFB sess? rate => oxr_xrRequestDisplayRefreshRateFB sess? rate
  | .setAndroidApplicationThreadKHR sess? tt tid =>
      oxr_xrSetAndroidApplicationThreadKHR sess? tt tid
  | .createFacialTrackerHTC sess? ci? => (oxr_xrCreateFacialTrackerHTC sess? ci?).1
  | .destroyFacialTrackerHTC tracker? => oxr_xrDestroyFacialTrackerHTC tracker?
  | .getFacialExpressionsHTC env ft fe => (oxr_xrGetFacialExpressionsHTC env ft fe).1
  | .createBodyTrackerFB sess? ci? => (oxr_xrCreateBodyTrackerFB sess? ci?).1
  | .destroyBodyTrackerFB tracker? => oxr_xrDestroyBodyTrackerFB tracker?
  | .getBodySkeletonFB tracker? sk? ok => oxr_xrGetBodySkeletonFB tracker? sk? ok
  | .locateBodyJointsFB tracker? li? locs? dev? bp m2t =>
      (oxr_xrLocateBodyJointsFB tracker? li? locs? dev? bp m2t).1
  | .requestBodyTrackingFidelityMETA tracker? fid =>
      oxr_xrRequestBodyTrackingFidelityMETA tracker? fid

/-- The session a call targets: its session argument, or the parent
session of its tracker handle argument.  For
`oxr_xrGetFacialExpressionsHTC` the nominal handle argument is
`facialTracker`, so the target is the session of the tracker that value
decodes to. -/
def targetSession : EntryCall → Option OxrSession
  | .destroySession sess? => sess?
  | .beginSession sess? _ => sess?
  | .endSession sess? => sess?
  | .waitFrame sess? _ _ => sess?
  | .beginFrame sess? _ => sess?
  | .endFrame sess? _ => sess?
  | .requestExitSession sess? => sess?
  | .locateViews sess? _ _ _ _ _ => sess?
  | .getVisibilityMaskKHR sess? _ _ _ _ => sess?
  | .perfSettingsSetPerformanceLevelEXT sess? _ _ => sess?
  | .thermalGetTemperatureTrendEXT sess? => sess?
  | .createHandTrackerEXT sess? _ _ => sess?
  | .destroyHandTrackerEXT tracker? => tracker?.map (·.sess)
  | .locateHandJointsEXT tracker? _ _ => tracker?.map (·.sess)
  | .applyForceFeedbackCurlMNDX tracker? _ => tracker?.map (·.sess)
  | .enumerateDisplayRefreshRatesFB sess? _ _ => sess?
  | .getDisplayRefreshRateFB sess? _ => sess?
  | .requestDisplayRefreshRateFB sess? _ => sess?
  | .setAndroidApplicationThreadKHR sess? _ _ => sess?
  | .createFacialTrackerHTC sess? _ => sess?
  | .destroyFacialTrackerHTC tracker? => tracker?.map (·.sess)
  | .getFacialExpressionsHTC env ft _ => (env.trackerAt ft).map (·.sess)
  | .createBodyTrackerFB sess? _ => sess?
  | .destroyBodyTrackerFB tracker? => tracker?.map (·.sess)
  | .getBodySkeletonFB tracker? _ _ => tracker?.map (·.sess)
  | .locateBodyJointsFB tracker? _ _ _ _ _ => tracker?.map (·.sess)
  | .requestBodyTrackingFidelityMETA tracker? _ => tracker?.map (·.sess)

/-- The call targets (directly or through a child tracker handle) a
session in the `Lost` state. -/
def targetLost (c : EntryCall) : Bool :=
  ((targetSession c).map (·.lost)).getD false

/-- The call is one of the destroy entrypoints of the file. -/
def isDestroyCall : EntryCall → Bool
  | .destroySession _ => true
  | .destroyHandTrackerEXT _ => true
  | .destroyFacialTrackerHTC _ => true
  | .destroyBodyTrackerFB _ => true
  | _ => false

/-- Calls that never run the session-lost check on their nominal target:
the destroy calls, `oxr_xrApplyForceFeedbackCurlMNDX` (which has no lost
check at all), and `oxr_xrGetFacialExpressionsHTC` (which runs all its
checks on the `facialExpressions` argument instead of the `facialTracker`
handle argument). -/
def isLostCheckExempt : EntryCall → Bool
  | .applyForceFeedbackCurlMNDX _ _ => true
  | .getFacialExpressionsHTC _ _ _ => true
  | c => isDestroyCall c

/-- The validation checks ordered before the session-lost check pass.
For almost every entrypoint the lost check directly follows the handle
check; `oxr_xrLocateBodyJointsFB` checks the two structure tags first. -/
def checksBeforeLostPass : EntryCall → Bool
  | .locateBodyJointsFB _ li? locs? _ _ _ =>
      ((li?.map (·.ty == XrStructTag.bodyJointsLocateInfoFB)).getD false) &&
      ((locs?.map (·.ty == XrStructTag.bodyJointLocationsFB)).getD false)
  | _ => true

/-! Concrete sample data used by the witness and counterexample
theorems. -/

/-- An instance with every extension and capability enabled, supporting
view configuration types 1 and 2. -/
def instAll : OxrInst :=
  { supported_view_configs := [1, 2]
    ext_EXT_hand_tracking := true
    ext_HTC_facial_tracking := true
    ext_FB_body_tracking := true
    ext_META_body_tracking_full_body := true
    ext_META_body_tracking_fidelity := true
    ext_KHR_visibility_mask := true
    ext_EXT_performance_settings := true
    ext_KHR_android_thread_settings := true
    hand_tracking_support := true
    face_eye_support := true
    face_lip_support := true
    body_tracking_fb_support := true
    full_body_tracking_meta_support := true }

/-- A device with every tracking capability and the generic inputs. -/
def devFull : XrtDevice :=
  { hand_tracking_supported := true
    face_tracking_supported := true
    body_tracking_supported := true
    body_tracking_fidelity_supported := true
    inputs := [.genericHandTrackingLeft, .genericHandTrackingRight,
               .htcEyeFaceTracking, .fbBodyTracking] }

/-- A fully populated system whose compositor supports exactly the
refresh rate 60.00 Hz. -/
def sysFull : OxrSystem :=
  { inst := instAll
    view_config_type := 2
    xsysc := some ⟨[60]⟩
    hand_tracking_left := some devFull
    hand_tracking_right := some devFull
    face := some devFull
    body := some devFull }

/-- A live session on `sysFull` that has not begun. -/
def liveSess : OxrSession := { sys := sysFull, has_begun := false, lost := false }

/-- A live running session on `sysFull`. -/
def runningSess : OxrSession := { sys := sysFull, has_begun := true, lost := false }

/-- A running session on a headless system (no compositor bound). -/
def headlessSess : OxrSession :=
  { sys := { sysFull with xsysc := none }, has_begun := true, lost := false }

/-- A session that has transitioned to `Lost`. -/
def lostSess : OxrSession := { sys := sysFull, has_begun := true, lost := true }

/-- A hand tracker whose parent session is lost. -/
def lostHandTracker : OxrHandTracker :=
  { sess := lostSess, hand := XR_HAND_LEFT_EXT, hand_joint_set := XR_HAND_JOINT_SET_DEFAULT_EXT
    xdev := some devFull, input_name := some .genericHandTrackingLeft }

/-- A system with hand tracking support but no device bound to the left
hand role. -/
def sysNoLeftHand : OxrSystem := { sysFull with hand_tracking_left := none }

/-- A live session on `sysNoLeftHand`. -/
def sessNoLeftHand : OxrSession := { sys := sysNoLeftHand, has_begun := false, lost := false }

/-- A live body tracker for the default FB joint set. -/
def bodyTrackerFb : OxrBodyTrackerFB :=
  { sess := runningSess, xdev := some devFull, joint_set_type := .defaultFb }

/-- A live body tracker for the META full-body joint set (84 joints). -/
def bodyTrackerFullBody : OxrBodyTrackerFB :=
  { sess := runningSess, xdev := some devFull, joint_set_type := .fullBodyMeta }

/-- A live HTC eye facial tracker. -/
def faceTrackerEye : OxrFacialTrackerHTC :=
  { sess := runningSess, xdev := some devFull
    facial_tracking_type := XR_FACIAL_TRACKING_TYPE_EYE_DEFAULT_HTC }

/-- The exact rational 59.999. -/
def rate59999 : Rat := ⟨59999, 1000, by decide, by decide⟩

/-- The exact rational 59.94. -/
def rate5994 : Rat := ⟨2997, 50, by decide, by decide⟩

/-- A raw-argument environment where raw value 1 decodes to a live eye
facial tracker and also reads as a well-formed expressions structure
with capacity 14, while raw value 2 decodes to nothing. -/
def faceEnv1 : FaceEnv :=
  { trackerAt := fun n => if n = 1 then some faceTrackerEye else none
    exprAt := fun n => if n = 1 then some ⟨.facialExpressionsHTC, 14, false⟩ else none
    monotonicToTs := fun t => t
    faceResult := { is_active := true, sample_time_ns := 5 } }

/-- Like `faceEnv1` but the expressions structure at raw value 1 has a
capacity of only 3 (below the eye expression count 14). -/
def faceEnvSmall : FaceEnv :=
  { trackerAt := fun n => if n = 1 then some faceTrackerEye else none
    exprAt := fun n => if n = 1 then some ⟨.facialExpressionsHTC, 3, false⟩ else none
    monotonicToTs := fun t => t
    faceResult := { is_active := true, sample_time_ns := 5 } }

/-! Theorems about the claims. -/

/-- Claim C3: on a headless system (no compositor object bound) the
refresh-rate enumerate call reports zero supported rates, the get call
reports a current rate of 0, and a change request of 0 succeeds — but a
change request with any nonzero rate dereferences the absent compositor
object (`sess->sys->xsysc`) and has undefined behaviour, contradicting
the part of the claim that says no refresh-rate call fails or
misbehaves.  The claim matches the evident intent (the two sibling calls
carry an explicit headless guard); the missing guard in the request call
is a code bug. -/
theorem C3_headless_refresh_rate :
    oxr_xrEnumerateDisplayRefreshRatesFB (some headlessSess) 0 false =
      (.ret .success, ⟨some 0, []⟩) ∧
    oxr_xrGetDisplayRefreshRateFB (some headlessSess) false = (.ret .success, some 0) ∧
    oxr_xrRequestDisplayRefreshRateFB (some headlessSess) 0 = .ret .success ∧
    oxr_xrRequestDisplayRefreshRateFB (some headlessSess) rate5994 = .crash := by
  refine ⟨rfl, rfl, by decide, by decide⟩

/-- Claim C4, counterexample: requesting 59.999 on a live, non-lost
session whose supported set is exactly {60.00} does not succeed — it
fails with the unsupported-rate error, because 59.999 truncated to two
decimal places is 59.99, not 60.00.  This falsifies the claim as stated
("requesting 59.999 when the supported set contains 60.00 succeeds"). -/
theorem C4_counterexample :
    runningSess.lost = false ∧
    runningSess.sys.xsysc = some ⟨[60]⟩ ∧
    oxr_xrRequestDisplayRefreshRateFB (some runningSess) rate59999 =
      .ret .errorDisplayRefreshRateUnsupportedFB := by
  refine ⟨rfl, rfl, by decide⟩

/-- Claim C4, amended: for every nonzero refresh-rate change request on
a live, non-lost session with a compositor bound, the request is
accepted (dispatched to `oxr_session_request_display_refresh_rate`)
exactly when the requested value truncated to two decimal places equals
some supported rate truncated to two decimal places, and otherwise fails
with the unsupported-rate error; in particular requesting 59.999 when
the supported set contains 60.00 fails with the unsupported-rate error
(59.99 differs from 60.00), as does requesting 59.94 when only 60.00 is
supported. -/
theorem C4_truncation_match (sess : OxrSession) (c : XrtSystemCompositorInfo) (rate : Rat)
    (hl : sess.lost = false) (hx : sess.sys.xsysc = some c) (hr : ¬ rate = 0) :
    oxr_xrRequestDisplayRefreshRateFB (some sess) rate =
      (if c.refresh_rates_hz.any (fun r => truncCent rate == truncCent r) then
        Outcome.call .sessionRequestDisplayRefreshRate
      else Outcome.ret .errorDisplayRefreshRateUnsupportedFB) := by
  simp [oxr_xrRequestDisplayRefreshRateFB, hl, hx, hr]

/-- Claim C4, witness: requesting 59.94 on a live session supporting
only 60.00 fails with the unsupported-rate error, by the amended
theorem. -/
theorem C4_witness :
    oxr_xrRequestDisplayRefreshRateFB (some runningSess) rate5994 =
      .ret .errorDisplayRefreshRateUnsupportedFB := by
  have h := C4_truncation_match runningSess ⟨[60]⟩ rate5994 rfl rfl (by decide)
  rw [h]
  decide

/-- Claim C5: on every live, non-lost session — whatever its lifecycle
flags and even on a headless system — a refresh-rate change request of
exactly 0 returns success from inside the entrypoint, before any state
is read or changed (`Outcome.ret` means the call returned without
dispatching to any downstream mutator). -/
theorem C5_zero_request (sess : OxrSession) (h : sess.lost = false) :
    oxr_xrRequestDisplayRefreshRateFB (some sess) 0 = .ret .success := by
  simp [oxr_xrRequestDisplayRefreshRateFB, h]

/-- Claim C5, witness: the zero request succeeds on a headless running
session. -/
theorem C5_witness :
    oxr_xrRequestDisplayRefreshRateFB (some headlessSess) 0 = .ret .success :=
  C5_zero_request headlessSess rfl

/-- Claim C6: on every session on which `oxr_xrBeginSession` has already
succeeded, a second `oxr_xrBeginSession` call with a well-formed begin
info and a view configuration type supported by the instance returns
`XR_ERROR_SESSION_RUNNING` and leaves the session state identical to its
state after the first call. -/
theorem C6_beginSession_twice (sess s1 : OxrSession) (info1 info2 : SessionBeginInfo)
    (h : oxr_xrBeginSession (some sess) (some info1) = (.ret .success, some s1))
    (h2 : info2.ty = .sessionBeginInfo)
    (h3 : s1.sys.inst.supported_view_configs.contains info2.primaryViewConfigurationType = true) :
    oxr_xrBeginSession (some s1) (some info2) = (.ret .errorSessionRunning, some s1) := by
  simp only [oxr_xrBeginSession, oxr_session_begin] at h
  by_cases hl : sess.lost
  · simp [hl] at h
  · by_cases hty : info1.ty = .sessionBeginInfo
    · by_cases hvc : info1.primaryViewConfigurationType ∈ sess.sys.inst.supported_view_configs
      · by_cases hb : sess.has_begun
        · simp [hl, hty, hvc, hb] at h
        · simp only [hl, hty, hvc, hb, if_false, if_true, ite_not, ne_eq, not_true_eq_false,
            Bool.false_eq_true, List.elem_eq_mem, decide_True, decide_eq_true_eq, ite_true,
            not_false_eq_true, Prod.mk.injEq, Option.some.injEq] at h
          obtain ⟨-, hs⟩ := h
          subst hs
          have h3m : info2.primaryViewConfigurationType ∈
              sess.sys.inst.supported_view_configs := by simpa using h3
          simp [oxr_xrBeginSession, hl, h2, h3m]
      · simp [hl, hty, hvc] at h
    · simp [hl, hty] at h

/-- Claim C6, witness: beginning `liveSess` succeeds and yields
`runningSess`; beginning it again returns `XR_ERROR_SESSION_RUNNING`
with the state unchanged, by the claim theorem. -/
theorem C6_witness :
    oxr_xrBeginSession (some runningSess) (some ⟨.sessionBeginInfo, 2⟩) =
      (.ret .errorSessionRunning, some runningSess) :=
  C6_beginSession_twice liveSess runningSess ⟨.sessionBeginInfo, 2⟩ ⟨.sessionBeginInfo, 2⟩
    rfl rfl rfl

/-- Claim C2, counterexample: creating a left-hand tracker on a live,
non-lost session with the hand tracking extension enabled, system-level
hand tracking support reported, but no device bound to the left-hand
role, returns success and creates a tracker with no device binding —
the claim requires `XR_ERROR_FEATURE_UNSUPPORTED` and no handle. -/
theorem C2_counterexample :
    sessNoLeftHand.lost = false ∧
    sessNoLeftHand.sys.inst.ext_EXT_hand_tracking = true ∧
    sessNoLeftHand.sys.inst.hand_tracking_support = true ∧
    sessNoLeftHand.sys.hand_tracking_left = none ∧
    oxr_xrCreateHandTrackerEXT (some sessNoLeftHand)
        (some ⟨.handTrackerCreateInfoEXT, XR_HAND_LEFT_EXT, XR_HAND_JOINT_SET_DEFAULT_EXT⟩)
        false =
      (.ret .success,
       some { sess := sessNoLeftHand, hand := XR_HAND_LEFT_EXT
              hand_joint_set := XR_HAND_JOINT_SET_DEFAULT_EXT
              xdev := none, input_name := none }) := by
  refine ⟨rfl, rfl, rfl, rfl, by decide⟩

/-- Claim C2, amended: for every hand-tracker creation call on a live,
non-lost session with the hand tracking extension enabled and a valid
hand value, the only `XR_ERROR_FEATURE_UNSUPPORTED` gate is the
system-level hand tracking support flag: with it false the call fails
and creates nothing; with it true the call succeeds even when no device
is bound to the requested hand role (the created tracker then carries no
device binding). -/
theorem C2_hand_tracker_create (sess : OxrSession) (ci : HandTrackerCreateInfo)
    (hl : sess.lost = false) (hty : ci.ty = .handTrackerCreateInfoEXT)
    (hext : sess.sys.inst.ext_EXT_hand_tracking = true)
    (hhand : ci.hand = XR_HAND_LEFT_EXT ∨ ci.hand = XR_HAND_RIGHT_EXT) :
    (sess.sys.inst.hand_tracking_support = false →
      oxr_xrCreateHandTrackerEXT (some sess) (some ci) false =
        (.ret .errorFeatureUnsupported, none)) ∧
    (sess.sys.inst.hand_tracking_support = true →
      ∃ t, oxr_xrCreateHandTrackerEXT (some sess) (some ci) false = (.ret .success, some t) ∧
        (ci.hand = XR_HAND_LEFT_EXT → sess.sys.hand_tracking_left = none → t.xdev = none) ∧
        (ci.hand = XR_HAND_RIGHT_EXT → sess.sys.hand_tracking_right = none → t.xdev = none)) := by
  have hhand2 : ¬ (ci.hand ≠ XR_HAND_LEFT_EXT ∧ ci.hand ≠ XR_HAND_RIGHT_EXT) := by
    rcases hhand with h | h <;> simp [h, XR_HAND_LEFT_EXT, XR_HAND_RIGHT_EXT]
  constructor
  · intro hsup
    simp [oxr_xrCreateHandTrackerEXT, oxr_hand_tracker_create, hl, hty, hext, hsup, hhand2]
  · intro hsup
    have hcreate : ∃ t, oxr_hand_tracker_create sess ci = (.success, some t) := by
      unfold oxr_hand_tracker_create
      rw [if_neg (by simp [hsup])]
      exact ⟨_, rfl⟩
    obtain ⟨t, ht⟩ := hcreate
    refine ⟨t, ?_, ?_, ?_⟩
    · simp [oxr_xrCreateHandTrackerEXT, hl, hty, hext, hhand2, ht]
    · intro hL hnone
      have hc2 : oxr_hand_tracker_create sess ci =
          (.success, some { sess := sess, hand := ci.hand, hand_joint_set := ci.handJointSet
                            xdev := none, input_name := none }) := by
        simp [oxr_hand_tracker_create, hsup, hL, hnone]
      rw [ht] at hc2
      simp only [Prod.mk.injEq, Option.some.injEq, true_and] at hc2
      simp [hc2]
    · intro hR hnone
      have hc2 : oxr_hand_tracker_create sess ci =
          (.success, some { sess := sess, hand := ci.hand, hand_joint_set := ci.handJointSet
                            xdev := none, input_name := none }) := by
        simp [oxr_hand_tracker_create, hsup, hR, hnone, XR_HAND_LEFT_EXT, XR_HAND_RIGHT_EXT]
      rw [ht] at hc2
      simp only [Prod.mk.injEq, Option.some.injEq, true_and] at hc2
      simp [hc2]

/-- Claim C2, witness: with system-level support off, creating a
right-hand tracker fails with `XR_ERROR_FEATURE_UNSUPPORTED` and no
handle, by the amended theorem. -/
theorem C2_witness :
    oxr_xrCreateHandTrackerEXT
        (some { liveSess with
                  sys := { sysFull with inst := { instAll with hand_tracking_support := false } } })
        (some ⟨.handTrackerCreateInfoEXT, XR_HAND_RIGHT_EXT, 0⟩) false =
      (.ret .errorFeatureUnsupported, none) :=
  (C2_hand_tracker_create _ _ rfl rfl rfl (Or.inr rfl)).1 rfl

/-- Claim C8, counterexample: a body-joint query whose caller capacity
(0) is below the tracker variant count (70) fails with
`XR_ERROR_VALIDATION_FAILURE`, not with the size-insufficient error the
claim requires (the write-nothing part does hold: the caller buffer and
fields are untouched). -/
theorem C8_counterexample :
    oxr_xrLocateBodyJointsFB (some bodyTrackerFb)
        (some ⟨.bodyJointsLocateInfoFB, some ⟨0⟩, 1⟩)
        (some ⟨.bodyJointLocationsFB, 0, some []⟩)
        (some ⟨true, 0, 0, 0, []⟩) (.ok ⟨1⟩) (fun t => t) =
      (.ret .errorValidationFailure, ⟨none, none, none, none, some []⟩) ∧
    XrResult.errorValidationFailure ≠ XrResult.errorSizeInsufficient := by
  refine ⟨rfl, by decide⟩

/-- Claim C8, amended: a tracker query whose caller capacity is below
the fixed joint/expression count of the tracker variant fails before
writing anything into caller memory, but the error code differs by
entrypoint: the hand query (which requires exact equality with the
default-set count) and the body query fail with
`XR_ERROR_VALIDATION_FAILURE`, while the HTC facial query fails with
`XR_ERROR_SIZE_INSUFFICIENT`. -/
theorem C8_undersized_queries :
    (∀ (tracker : OxrHandTracker) (li : HandJointsLocateInfo) (locs : HandJointLocations),
      tracker.sess.lost = false → tracker.hand_joint_set = XR_HAND_JOINT_SET_DEFAULT_EXT →
      li.ty = .handJointsLocateInfoEXT → li.baseSpace.isNone = false → 0 < li.time →
      locs.ty = .handJointLocationsEXT → locs.jointLocationsNull = false →
      locs.jointCount < XR_HAND_JOINT_COUNT_EXT →
      oxr_xrLocateHandJointsEXT (some tracker) (some li) (some locs) =
        .ret .errorValidationFailure) ∧
    (∀ (tracker : OxrBodyTrackerFB) (d : XrtDevice) (li : BodyJointsLocateInfo)
        (locs : BodyJointLocations) (dev? : Option BodyJointSetResult)
        (bp : Except XrResult Relation) (m2t : Int → Int),
      tracker.sess.lost = false → tracker.xdev = some d → d.body_tracking_supported = true →
      li.ty = .bodyJointsLocateInfoFB → li.baseSpace.isNone = false →
      locs.ty = .bodyJointLocationsFB → locs.jointLocations.isNone = false →
      locs.jointCount < (if tracker.joint_set_type = .fullBodyMeta
        then XRT_FULL_BODY_JOINT_COUNT_META else XRT_BODY_JOINT_COUNT_FB) →
      oxr_xrLocateBodyJointsFB (some tracker) (some li) (some locs) dev? bp m2t =
        (.ret .errorValidationFailure, ⟨none, none, none, none, locs.jointLocations⟩)) ∧
    (∀ (env : FaceEnv) (ft fe : Nat) (tracker : OxrFacialTrackerHTC)
        (festruct : FacialExpressionsIn),
      env.trackerAt fe = some tracker → tracker.sess.lost = false →
      tracker.xdev.isNone = false → env.exprAt fe = some festruct →
      festruct.ty = .facialExpressionsHTC → festruct.expressionWeightingsNull = false →
      ((tracker.facial_tracking_type = XR_FACIAL_TRACKING_TYPE_EYE_DEFAULT_HTC ∧
          festruct.expressionCount < XRT_FACIAL_EXPRESSION_EYE_COUNT_HTC) ∨
       (tracker.facial_tracking_type = XR_FACIAL_TRACKING_TYPE_LIP_DEFAULT_HTC ∧
          festruct.expressionCount < XRT_FACIAL_EXPRESSION_LIP_COUNT_HTC)) →
      oxr_xrGetFacialExpressionsHTC env ft fe = (.ret .errorSizeInsufficient, .none3)) := by
  refine ⟨?_, ?_, ?_⟩
  · intro tracker li locs hl hset hty1 hbs htime hty2 hnull hcount
    have hne : locs.jointCount ≠ XR_HAND_JOINT_COUNT_EXT := Nat.ne_of_lt hcount
    have htime2 : ¬ li.time ≤ 0 := by omega
    simp [oxr_xrLocateHandJointsEXT, hl, hset, hty1, hbs, htime2, hty2, hnull, hne]
  · intro tracker d li locs dev? bp m2t hl hx hsup hty1 hbs hty2 hjl hcount
    simp [oxr_xrLocateBodyJointsFB, hl, hx, hsup, hty1, hbs, hty2, hjl, hcount]
  · intro env ft fe tracker festruct ht hl hx he hty hnull hcount
    rcases hcount with ⟨hft, hc⟩ | ⟨hft, hc⟩ <;>
      simp [oxr_xrGetFacialExpressionsHTC, ht, hl, hx, he, hty, hnull, hft, hc,
        XR_FACIAL_TRACKING_TYPE_EYE_DEFAULT_HTC, XR_FACIAL_TRACKING_TYPE_LIP_DEFAULT_HTC]

/-- Claim C8, witness: an undersized eye facial query fails with
`XR_ERROR_SIZE_INSUFFICIENT` and writes nothing, by the amended
theorem. -/
theorem C8_witness :
    oxr_xrGetFacialExpressionsHTC faceEnvSmall 7 1 = (.ret .errorSizeInsufficient, .none3) :=
  C8_undersized_queries.2.2 faceEnvSmall 7 1 faceTrackerEye ⟨.facialExpressionsHTC, 3, false⟩
    rfl rfl rfl rfl rfl rfl (Or.inl ⟨rfl, by decide⟩)

set_option maxRecDepth 4000 in
/-- Claim C9: the claim describes the intended inactive-result contract
(isActive false, all per-joint location flags of the tracker variant
cleared, success returned), and the code deviates from it for the META
full-body variant: on a device-inactive body query against an 84-joint
full-body tracker with every location flag initially 1, the call
returns success and writes `isActive = false`, but clears the location
flags of only the first `XRT_BODY_JOINT_COUNT_FB` (70) entries — the
loop uses the fixed FB count instead of the variant count the same
function computes — leaving joints 70..83 uncleared (joint 83 still has
flags 1). -/
theorem C9_failing_input :
    oxr_xrLocateBodyJointsFB (some bodyTrackerFullBody)
        (some ⟨.bodyJointsLocateInfoFB, some ⟨0⟩, 1⟩)
        (some ⟨.bodyJointLocationsFB, 84, some (List.replicate 84 ⟨1⟩)⟩)
        (some ⟨false, 0, 0, 0, []⟩) (.ok ⟨1⟩) (fun t => t) =
      (.ret .success,
       ⟨some false, none, none, none,
        some (List.replicate 70 (⟨0⟩ : JointLocation) ++
              List.replicate 14 (⟨1⟩ : JointLocation))⟩) ∧
    ((List.replicate 70 (⟨0⟩ : JointLocation) ++
        List.replicate 14 (⟨1⟩ : JointLocation)).getD 83 ⟨0⟩).locationFlags = 1 := by
  refine ⟨rfl, rfl⟩

/-- Claim C10: `oxr_xrGetFacialExpressionsHTC` performs the tracker
handle check on the `facialExpressions` argument rather than on the
`facialTracker` handle argument: the result never depends on the
`facialTracker` value, and the call fails with
`XR_ERROR_HANDLE_INVALID` exactly when `facialExpressions` does not
decode to a live facial tracker — even when `facialTracker` is a valid
live tracker. -/
theorem C10_wrong_handle_argument (env : FaceEnv) (ft1 ft2 fe : Nat) :
    oxr_xrGetFacialExpressionsHTC env ft1 fe = oxr_xrGetFacialExpressionsHTC env ft2 fe ∧
    ((oxr_xrGetFacialExpressionsHTC env ft1 fe).1 = .ret .errorHandleInvalid ↔
      env.trackerAt fe = none) := by
  refine ⟨rfl, ?_, ?_⟩
  · intro h
    by_contra hn
    obtain ⟨t, ht⟩ := Option.ne_none_iff_exists'.mp hn
    rcases ht2 : env.exprAt fe with _ | fe2 <;>
      simp only [oxr_xrGetFacialExpressionsHTC, ht, ht2] at h <;>
      split_ifs at h <;> simp_all
  · intro h
    simp [oxr_xrGetFacialExpressionsHTC, h]

/-- Claim C1, counterexample: `oxr_xrApplyForceFeedbackCurlMNDX` called
on a child hand tracker of a lost session is not the session destroy
operation, yet does not fail with `XR_ERROR_SESSION_LOST` — it has no
session-lost check and dispatches to
`oxr_session_apply_force_feedback`. -/
theorem C1_counterexample :
    targetLost (.applyForceFeedbackCurlMNDX (some lostHandTracker)
        (some .forceFeedbackCurlApplyLocationsMNDX)) = true ∧
    isDestroyCall (.applyForceFeedbackCurlMNDX (some lostHandTracker)
        (some .forceFeedbackCurlApplyLocationsMNDX)) = false ∧
    runEntry (.applyForceFeedbackCurlMNDX (some lostHandTracker)
        (some .forceFeedbackCurlApplyLocationsMNDX)) = .call .sessionApplyForceFeedback ∧
    Outcome.call .sessionApplyForceFeedback ≠ .ret .errorSessionLost := by
  exact ⟨rfl, rfl, rfl, by decide⟩

/-- Claim C1, amended: every entrypoint call of the file that targets a
lost session — directly or through a child tracker handle — and reaches
its session-lost check fails with `XR_ERROR_SESSION_LOST`, and the
destroy calls always succeed on a valid handle; the exceptions, beyond
`oxr_xrDestroySession`, are the three tracker destroy calls (which also
proceed), `oxr_xrApplyForceFeedbackCurlMNDX` (which performs no
session-lost check), `oxr_xrGetFacialExpressionsHTC` (which checks the
`facialExpressions` argument instead of the tracker handle), and — for
`oxr_xrLocateBodyJointsFB` — argument-shape checks ordered before the
lost check, whose failure masks the lost error. -/
theorem C1_lost_behaviour :
    (∀ c : EntryCall, targetLost c = true → isLostCheckExempt c = false →
        checksBeforeLostPass c = true → runEntry c = .ret .errorSessionLost) ∧
    (∀ c : EntryCall, targetLost c = true → isDestroyCall c = true →
        runEntry c = .ret .success) := by
  constructor
  · intro c h1 h2 h3
    cases c with
    | destroySession sess? => simp [isLostCheckExempt, isDestroyCall] at h2
    | destroyHandTrackerEXT tracker? => simp [isLostCheckExempt, isDestroyCall] at h2
    | destroyFacialTrackerHTC tracker? => simp [isLostCheckExempt, isDestroyCall] at h2
    | destroyBodyTrackerFB tracker? => simp [isLostCheckExempt, isDestroyCall] at h2
    | applyForceFeedbackCurlMNDX tracker? locations? => simp [isLostCheckExempt] at h2
    | getFacialExpressionsHTC env ft fe => simp [isLostCheckExempt] at h2
    | beginSession sess? info? =>
      cases sess? with
      | none => simp [targetLost, targetSession] at h1
      | some s =>
        simp [targetLost, targetSession] at h1
        simp [runEntry, oxr_xrBeginSession, h1]
    | endSession sess? =>
      cases sess? with
      | none => simp [targetLost, targetSession] at h1
      | some s =>
        simp [targetLost, targetSession] at h1
        simp [runEntry, oxr_xrEndSession, h1]
    | waitFrame sess? fwi? fs? =>
      cases sess? with
      | none => simp [targetLost, targetSession] at h1
      | some s =>
        simp [targetLost, targetSession] at h1
        simp [runEntry, oxr_xrWaitFrame, h1]
    | beginFrame sess? fbi? =>
      cases sess? with
      | none => simp [targetLost, targetSession] at h1
      | some s =>
        simp [targetLost, targetSession] at h1
        simp [runEntry, oxr_xrBeginFrame, h1]
    | endFrame sess? fei? =>
      cases sess? with
      | none => simp [targetLost, targetSession] at h1
      | some s =>
        simp [targetLost, targetSession] at h1
        simp [runEntry, oxr_xrEndFrame, h1]
    | requestExitSession sess? =>
      cases sess? with
      | none => simp [targetLost, targetSession] at h1
      | some s =>
        simp [targetLost, targetSession] at h1
        simp [runEntry, oxr_xrRequestExitSession, h1]
    | locateViews sess? vli? vs? cap conull views? =>
      cases sess? with
      | none => simp [targetLost, targetSession] at h1
      | some s =>
        simp [targetLost, targetSession] at h1
        simp [runEntry, oxr_xrLocateViews, h1]
    | getVisibilityMaskKHR sess? vct vi mt mask? =>
      cases sess? with
      | none => simp [targetLost, targetSession] at h1
      | some s =>
        simp [targetLost, targetSession] at h1
        simp [runEntry, oxr_xrGetVisibilityMaskKHR, h1]
    | perfSettingsSetPerformanceLevelEXT sess? domain level =>
      cases sess? with
      | none => simp [targetLost, targetSession] at h1
      | some s =>
        simp [targetLost, targetSession] at h1
        simp [runEntry, oxr_xrPerfSettingsSetPerformanceLevelEXT, h1]
    | thermalGetTemperatureTrendEXT sess? =>
      cases sess? with
      | none => simp [targetLost, targetSession] at h1
      | some s =>
        simp [targetLost, targetSession] at h1
        simp [runEntry, oxr_xrThermalGetTemperatureTrendEXT, h1]
    | createHandTrackerEXT sess? ci? outNull =>
      cases sess? with
      | none => simp [targetLost, targetSession] at h1
      | some s =>
        simp [targetLost, targetSession] at h1
        simp [runEntry, oxr_xrCreateHandTrackerEXT, h1]
    | locateHandJointsEXT tracker? li? locs? =>
      cases tracker? with
      | none => simp [targetLost, targetSession] at h1
      | some t =>
        simp [targetLost, targetSession] at h1
        simp [runEntry, oxr_xrLocateHandJointsEXT, h1]
    | enumerateDisplayRefreshRatesFB sess? cap conull =>
      cases sess? with
      | none => simp [targetLost, targetSession] at h1
      | some s =>
        simp [targetLost, targetSession] at h1
        simp [runEntry, oxr_xrEnumerateDisplayRefreshRatesFB, h1]
    | getDisplayRefreshRateFB sess? outNull =>
      cases sess? with
      | none => simp [targetLost, targetSession] at h1
      | some s =>
        simp [targetLost, targetSession] at h1
        simp [runEntry, oxr_xrGetDisplayRefreshRateFB, h1]
    | requestDisplayRefreshRateFB sess? rate =>
      cases sess? with
      | none => simp [targetLost, targetSession] at h1
      | some s =>
        simp [targetLost, targetSession] at h1
        simp [runEntry, oxr_xrRequestDisplayRefreshRateFB, h1]
    | setAndroidApplicationThreadKHR sess? tt tid =>
      cases sess? with
      | none => simp [targetLost, targetSession] at h1
      | some s =>
        simp [targetLost, targetSession] at h1
        simp [runEntry, oxr_xrSetAndroidApplicationThreadKHR, h1]
    | createFacialTrackerHTC sess? ci? =>
      cases sess? with
      | none => simp [targetLost, targetSession] at h1
      | some s =>
        simp [targetLost, targetSession] at h1
        simp [runEntry, oxr_xrCreateFacialTrackerHTC, h1]
    | createBodyTrackerFB sess? ci? =>
      cases sess? with
      | none => simp [targetLost, targetSession] at h1
      | some s =>
        simp [targetLost, targetSession] at h1
        simp [runEntry, oxr_xrCreateBodyTrackerFB, h1]
    | getBodySkeletonFB tracker? sk? ok =>
      cases tracker? with
      | none => simp [targetLost, targetSession] at h1
      | some t =>
        simp [targetLost, targetSession] at h1
        simp [runEntry, oxr_xrGetBodySkeletonFB, h1]
    | locateBodyJointsFB tracker? li? locs? dev? bp m2t =>
      cases tracker? with
      | none => simp [targetLost, targetSession] at h1
      | some t =>
        simp [targetLost, targetSession] at h1
        cases li? with
        | none => simp [checksBeforeLostPass] at h3
        | some li =>
          cases locs? with
          | none => simp [checksBeforeLostPass] at h3
          | some locs =>
            simp [checksBeforeLostPass] at h3
            obtain ⟨h3a, h3b⟩ := h3
            simp [runEntry, oxr_xrLocateBodyJointsFB, h1, h3a, h3b]
    | requestBodyTrackingFidelityMETA tracker? fid =>
      cases tracker? with
      | none => simp [targetLost, targetSession] at h1
      | some t =>
        simp [targetLost, targetSession] at h1
        simp [runEntry, oxr_xrRequestBodyTrackingFidelityMETA, h1]
  · intro c h1 h2
    cases c
    case destroySession sess? =>
      cases sess? with
      | none => simp [targetLost, targetSession] at h1
      | some s => rfl
    case destroyHandTrackerEXT tracker? =>
      cases tracker? with
      | none => simp [targetLost, targetSession] at h1
      | some t => rfl
    case destroyFacialTrackerHTC tracker? =>
      cases tracker? with
      | none => simp [targetLost, targetSession] at h1
      | some t => rfl
    case destroyBodyTrackerFB tracker? =>
      cases tracker? with
      | none => simp [targetLost, targetSession] at h1
      | some t => rfl
    all_goals simp [isDestroyCall] at h2

/-- Claim C1, witness: a `WaitFrame` call on a lost session fails with
`XR_ERROR_SESSION_LOST`, and destroying that lost session succeeds, by
the amended theorem. -/
theorem C1_witness :
    runEntry (.waitFrame (some lostSess) none (some .frameState)) =
      .ret .errorSessionLost ∧
    runEntry (.destroySession (some lostSess)) = .ret .success :=
  ⟨C1_lost_behaviour.1 (.waitFrame (some lostSess) none (some .frameState)) rfl rfl rfl,
   C1_lost_behaviour.2 (.destroySession (some lostSess)) rfl rfl⟩

end OxrApiSession
